import Mathlib

/-!
Verification of the task-management backend: a shallow embedding of the
data model (User, Task, RefreshToken, AuditLog), the credential/token
services, the auth middleware and the HTTP handlers, with theorems
checking the specification's claims against the embedded code.

Machine integers do not overflow in the source (Python), so ids and
timestamps are modelled as `Nat`/`Int`.  JWTs are modelled as their claim
records together with a flag recording whether the signature verifies
under the configured key; `jwt.decode` fails exactly when the signature
is invalid or the `exp` claim is in the past.
-/

namespace TaskApp

/-- TaskStatus enumeration from app/models/task.py. -/
inductive TaskStatus where
  | todo
  | inProgress
  | done
deriving DecidableEq, Repr

/-- TaskPriority enumeration from app/models/task.py. -/
inductive TaskPriority where
  | low
  | medium
  | high
  | urgent
deriving DecidableEq, Repr

/-- UserRole enumeration from app/models/user.py. -/
inductive UserRole where
  | admin
  | user
deriving DecidableEq, Repr

/-- User row (app/models/user.py).  Timestamps irrelevant to the claims
are omitted; the password column stores an opaque hash string. -/
structure User where
  id : Nat
  email : String
  username : String
  hashedPassword : String
  role : UserRole
  isActive : Bool
deriving DecidableEq, Repr

/-- Task row (app/models/task.py). -/
structure Task where
  id : Nat
  title : String
  description : Option String
  status : TaskStatus
  priority : TaskPriority
  dueDate : Option Int
  assignedUserId : Option Nat
  createdBy : Nat
  createdAt : Int
  updatedAt : Int
  isDeleted : Bool
deriving DecidableEq, Repr

/-- Token type claim of a JWT ("access" / "refresh"). -/
inductive TokenType where
  | access
  | refresh
deriving DecidableEq, Repr

/-- A JWT, modelled as its decoded claims (`sub`, `exp`, `type`) plus a
flag recording whether its signature verifies under the server key. -/
structure Jwt where
  sub : Option Nat
  exp : Int
  typ : TokenType
  sigValid : Bool
deriving DecidableEq, Repr

/-- RefreshToken row (app/models/refresh_token.py). -/
structure RefreshTokenRow where
  token : Jwt
  userId : Nat
  expiresAt : Int
  isRevoked : Bool
  replacedByToken : Option Jwt
deriving DecidableEq, Repr

/-- AuditLog row (app/models/audit_log.py); the JSON value columns are
not needed by the claims. -/
structure AuditLog where
  userId : Nat
  taskId : Option Nat
  action : String
  timestamp : Int
deriving DecidableEq, Repr

/-- Database state: the four persisted tables. -/
structure DB where
  users : List User
  tasks : List Task
  refreshTokens : List RefreshTokenRow
  auditLogs : List AuditLog
deriving DecidableEq, Repr

/-- Settings (app/core/config.py); only the token lifetimes matter here. -/
structure Settings where
  jwtAccessTokenExpireMinutes : Int := 15
  jwtRefreshTokenExpireDays : Int := 7
deriving DecidableEq, Repr

/-- The HTTP error responses raised by the handlers. -/
inductive ApiError where
  | unauthorized (detail : String)
  | forbidden (detail : String)
  | notFound (detail : String)
  | badRequest (detail : String)
deriving DecidableEq, Repr

/-- The refresh-token cookie set by login/refresh. -/
structure Cookie where
  value : Jwt
  httponly : Bool
  secure : Bool
  sameSite : String
  maxAge : Nat
deriving DecidableEq, Repr

/-- TokenService.create_access_token (app/core/security.py), default
expiry path: `exp = now + access lifetime`, type claim "access". -/
def create_access_token (sub : Nat) (now : Int) (s : Settings) : Jwt :=
  { sub := some sub
    exp := now + s.jwtAccessTokenExpireMinutes * 60
    typ := TokenType.access
    sigValid := true }

/-- TokenService.create_refresh_token: `exp = now + refresh lifetime in
days`, type claim "refresh". -/
def create_refresh_token (sub : Nat) (now : Int) (s : Settings) : Jwt :=
  { sub := some sub
    exp := now + s.jwtRefreshTokenExpireDays * 86400
    typ := TokenType.refresh
    sigValid := true }

/-- `jose.jwt.decode`: fails (JWTError) when the signature is invalid or
the `exp` claim is strictly in the past; otherwise yields the claims. -/
def jwtDecode (tok : Jwt) (now : Int) : Option Jwt :=
  if tok.sigValid && decide (now ≤ tok.exp) then some tok else none

/-- TokenService.verify_token: decode, then check the type claim. -/
def verify_token (tok : Jwt) (tokenType : TokenType) (now : Int) :
    Except ApiError Jwt :=
  match jwtDecode tok now with
  | none => Except.error (ApiError.unauthorized "Could not validate credentials")
  | some payload =>
    if payload.typ != tokenType then
      Except.error (ApiError.unauthorized "Invalid token type")
    else
      Except.ok payload

/-- get_current_user (app/middleware/auth.py): verify the bearer token
as an access token, read `sub`, load the user, reject missing or
inactive accounts with Unauthorized. -/
def get_current_user (db : DB) (cred : Jwt) (now : Int) :
    Except ApiError User :=
  match verify_token cred TokenType.access now with
  | Except.error e => Except.error e
  | Except.ok payload =>
    match payload.sub with
    | none => Except.error (ApiError.unauthorized "Could not validate credentials")
    | some uid =>
      match db.users.find? (fun u => u.id == uid) with
      | none => Except.error (ApiError.unauthorized "User not found or inactive")
      | some u =>
        if !u.isActive then
          Except.error (ApiError.unauthorized "User not found or inactive")
        else
          Except.ok u

/-- get_current_active_user: re-check the active flag on the resolved
user, rejecting with Bad Request. -/
def get_current_active_user (db : DB) (cred : Jwt) (now : Int) :
    Except ApiError User :=
  match get_current_user db cred now with
  | Except.error e => Except.error e
  | Except.ok u =>
    if !u.isActive then
      Except.error (ApiError.badRequest "Inactive user")
    else
      Except.ok u

/-- get_admin_user: require the administrator role. -/
def get_admin_user (db : DB) (cred : Jwt) (now : Int) :
    Except ApiError User :=
  match get_current_active_user db cred now with
  | Except.error e => Except.error e
  | Except.ok u =>
    if u.role != UserRole.admin then
      Except.error (ApiError.forbidden "Not enough permissions")
    else
      Except.ok u

/-- C4: `verify_token` fails with Unauthorized exactly when the
signature is invalid, the `exp` claim is in the past, or the type claim
differs from the expected type; otherwise it returns the claim map; and
the identity-resolution dependency used by every protected endpoint
rejects any token whose `exp` is in the past with Unauthorized. -/
theorem C4_verify_token_spec (tok : Jwt) (ty : TokenType) (now : Int) :
    ((∃ d, verify_token tok ty now = Except.error (ApiError.unauthorized d)) ↔
      (tok.sigValid = false ∨ tok.exp < now ∨ tok.typ ≠ ty)) ∧
    (tok.sigValid = true → now ≤ tok.exp → tok.typ = ty →
      verify_token tok ty now = Except.ok tok) ∧
    (∀ db : DB, tok.exp < now →
      (∃ d, get_current_user db tok now = Except.error (ApiError.unauthorized d)) ∧
      (∃ d, get_current_active_user db tok now = Except.error (ApiError.unauthorized d)) ∧
      (∃ d, get_admin_user db tok now = Except.error (ApiError.unauthorized d))) := by
  refine ⟨?_, ?_, ?_⟩
  · constructor
    · intro ⟨d, hd⟩
      by_contra hcon
      push_neg at hcon
      obtain ⟨hsig, hexp, hty⟩ := hcon
      simp only [Bool.not_eq_false] at hsig
      simp [verify_token, jwtDecode, hsig, hexp, hty] at hd
    · intro h
      rcases h with hsig | hexp | hty
      · exact ⟨"Could not validate credentials", by simp [verify_token, jwtDecode, hsig]⟩
      · exact ⟨"Could not validate credentials", by simp [verify_token, jwtDecode, not_le.mpr hexp]⟩
      · by_cases hsig : tok.sigValid
        · by_cases hexp : now ≤ tok.exp
          · exact ⟨"Invalid token type", by simp [verify_token, jwtDecode, hsig, hexp, hty]⟩
          · exact ⟨"Could not validate credentials", by simp [verify_token, jwtDecode, hexp]⟩
        · exact ⟨"Could not validate credentials", by
            simp [verify_token, jwtDecode, hsig]⟩
  · intro hsig hexp hty
    simp [verify_token, jwtDecode, hsig, hexp, hty]
  · intro db hexp
    have hver : verify_token tok TokenType.access now =
        Except.error (ApiError.unauthorized "Could not validate credentials") := by
      simp [verify_token, jwtDecode, not_le.mpr hexp]
    refine ⟨⟨"Could not validate credentials", ?_⟩,
            ⟨"Could not validate credentials", ?_⟩,
            ⟨"Could not validate credentials", ?_⟩⟩
    · simp [get_current_user, hver]
    · simp [get_current_active_user, get_current_user, hver]
    · simp [get_admin_user, get_current_active_user, get_current_user, hver]

/-- C4 witness: the specification theorem applied at a concrete valid
token and at a concrete expired token. -/
theorem C4_verify_token_spec_witness :
    verify_token ⟨some 1, 100, TokenType.access, true⟩ TokenType.access 50 =
      Except.ok ⟨some 1, 100, TokenType.access, true⟩ ∧
    (∃ d, get_current_user ⟨[], [], [], []⟩ ⟨some 1, 100, TokenType.access, true⟩ 200 =
      Except.error (ApiError.unauthorized d)) :=
  ⟨(C4_verify_token_spec ⟨some 1, 100, TokenType.access, true⟩ TokenType.access 50).2.1
      (by decide) (by decide) (by decide),
   ((C4_verify_token_spec ⟨some 1, 100, TokenType.access, true⟩ TokenType.access 200).2.2
      ⟨[], [], [], []⟩ (by decide)).1⟩

/-- C10: whenever get_current_user succeeds, the returned user is
active, so the "Inactive user" Bad-Request branch of
get_current_active_user is unreachable and it returns the same user. -/
theorem C10_inactive_branch_unreachable (db : DB) (cred : Jwt) (now : Int)
    (u : User) (h : get_current_user db cred now = Except.ok u) :
    u.isActive = true ∧ get_current_active_user db cred now = Except.ok u := by
  have hact : u.isActive = true := by
    unfold get_current_user at h
    split at h
    · exact absurd h (by simp)
    · split at h
      · exact absurd h (by simp)
      · split at h
        · exact absurd h (by simp)
        · split at h
          · exact absurd h (by simp)
          · next hcond =>
              injection h with h'
              rw [← h']
              simpa using hcond
  refine ⟨hact, ?_⟩
  simp [get_current_active_user, h, hact]

/-- C10 witness: the theorem applied to a concrete database and token on
which identity resolution succeeds. -/
theorem C10_inactive_branch_unreachable_witness :
    (⟨1, "a@b.c", "alice", "h", UserRole.user, true⟩ : User).isActive = true ∧
    get_current_active_user
      ⟨[⟨1, "a@b.c", "alice", "h", UserRole.user, true⟩], [], [], []⟩
      ⟨some 1, 100, TokenType.access, true⟩ 50 =
      Except.ok ⟨1, "a@b.c", "alice", "h", UserRole.user, true⟩ :=
  C10_inactive_branch_unreachable
    ⟨[⟨1, "a@b.c", "alice", "h", UserRole.user, true⟩], [], [], []⟩
    ⟨some 1, 100, TokenType.access, true⟩ 50
    ⟨1, "a@b.c", "alice", "h", UserRole.user, true⟩ rfl

/-- login (app/api/auth.py): find the user by email, check the password
and the active flag, create the token pair, persist the refresh token
with `expires_at = now + timedelta(days=7)`, set the cookie with
`max_age = 7 * 24 * 60 * 60` and log `USER_LOGIN`.  The password check
of the external hashing library is passed in as `pwVerify`.  The state
is threaded explicitly: a handler that raises leaves the database
unchanged (the session is never committed). -/
def login (db : DB) (s : Settings) (now : Int) (email pw : String)
    (pwVerify : String → String → Bool) :
    DB × Except ApiError (Jwt × Cookie) :=
  match db.users.find? (fun u => u.email == email) with
  | none => (db, Except.error (ApiError.unauthorized "Incorrect email or password"))
  | some user =>
    if !pwVerify pw user.hashedPassword then
      (db, Except.error (ApiError.unauthorized "Incorrect email or password"))
    else if !user.isActive then
      (db, Except.error (ApiError.unauthorized "Account is inactive"))
    else
      let accessToken := create_access_token user.id now s
      let refreshTok := create_refresh_token user.id now s
      let row : RefreshTokenRow :=
        { token := refreshTok
          userId := user.id
          expiresAt := now + 7 * 86400
          isRevoked := false
          replacedByToken := none }
      let cookie : Cookie :=
        { value := refreshTok
          httponly := true
          secure := true
          sameSite := "strict"
          maxAge := 7 * 24 * 60 * 60 }
      ({ db with
          refreshTokens := db.refreshTokens ++ [row]
          auditLogs := db.auditLogs ++ [⟨user.id, none, "USER_LOGIN", now⟩] },
       Except.ok (accessToken, cookie))

/-- C5: every login where no user matches the email, or the password
check fails, or the account is inactive, fails with Unauthorized and
leaves the database (hence the RefreshToken and AuditLog tables)
unchanged; no token or cookie is issued since the result carries none. -/
theorem C5_login_error_no_state_change (db : DB) (s : Settings) (now : Int)
    (email pw : String) (pwVerify : String → String → Bool)
    (h : match db.users.find? (fun u => u.email == email) with
         | none => True
         | some u => pwVerify pw u.hashedPassword = false ∨ u.isActive = false) :
    (login db s now email pw pwVerify).1 = db ∧
    (∃ d, (login db s now email pw pwVerify).2 =
      Except.error (ApiError.unauthorized d)) := by
  rcases hf : db.users.find? (fun u => u.email == email) with _ | u
  · exact ⟨by simp [login, hf], "Incorrect email or password", by simp [login, hf]⟩
  · rw [hf] at h
    rcases h with hpw | hact
    · exact ⟨by simp [login, hf, hpw], "Incorrect email or password",
        by simp [login, hf, hpw]⟩
    · by_cases hpw : pwVerify pw u.hashedPassword
      · exact ⟨by simp [login, hf, hpw, hact], "Account is inactive",
          by simp [login, hf, hpw, hact]⟩
      · exact ⟨by simp [login, hf, hpw], "Incorrect email or password",
          by simp [login, hf, hpw]⟩

/-- C5 witness: the theorem applied to a database with one inactive user
whose password check succeeds. -/
theorem C5_login_error_no_state_change_witness :
    (login ⟨[⟨1, "a@b.c", "alice", "h", UserRole.user, false⟩], [], [], []⟩
      ⟨15, 7⟩ 0 "a@b.c" "pw" (fun _ _ => true)).1 =
      ⟨[⟨1, "a@b.c", "alice", "h", UserRole.user, false⟩], [], [], []⟩ ∧
    (∃ d, (login ⟨[⟨1, "a@b.c", "alice", "h", UserRole.user, false⟩], [], [], []⟩
      ⟨15, 7⟩ 0 "a@b.c" "pw" (fun _ _ => true)).2 =
      Except.error (ApiError.unauthorized d)) :=
  C5_login_error_no_state_change
    ⟨[⟨1, "a@b.c", "alice", "h", UserRole.user, false⟩], [], [], []⟩
    ⟨15, 7⟩ 0 "a@b.c" "pw" (fun _ _ => true) (by simp)

/-- C7 counterexample: with the refresh-token lifetime configured to 1
day, a successful login still persists a row expiring 604800 seconds
(7 days) after issuance, not `now + configured lifetime` (86400):
the stored expiry is hardcoded and does not follow the setting. -/
theorem C7_counterexample :
    ((login ⟨[⟨1, "a@b.c", "alice", "h", UserRole.user, true⟩], [], [], []⟩
        ⟨15, 1⟩ 0 "a@b.c" "pw" (fun _ _ => true)).1.refreshTokens.map
      (fun r => r.expiresAt)) = [604800] ∧
    (0 + (⟨15, 1⟩ : Settings).jwtRefreshTokenExpireDays * 86400 = 86400) ∧
    (604800 : Int) ≠ 86400 := by
  refine ⟨rfl, by decide, by decide⟩

/-- C7 amended: every successful login appends exactly one non-revoked
RefreshToken row whose `expires_at` is the issuance time plus seven
days — a hardcoded constant, for every value of the configured
refresh-token lifetime — and sets the cookie with max-age
`7 * 24 * 60 * 60` = 604800 seconds. -/
theorem C7_login_refresh_row (db : DB) (s : Settings) (now : Int)
    (email pw : String) (pwVerify : String → String → Bool) (u : User)
    (hfind : db.users.find? (fun x => x.email == email) = some u)
    (hpw : pwVerify pw u.hashedPassword = true)
    (hact : u.isActive = true) :
    (login db s now email pw pwVerify).1.refreshTokens =
      db.refreshTokens ++
        [⟨create_refresh_token u.id now s, u.id, now + 7 * 86400, false, none⟩] ∧
    (login db s now email pw pwVerify).2 =
      Except.ok (create_access_token u.id now s,
        ⟨create_refresh_token u.id now s, true, true, "strict", 7 * 24 * 60 * 60⟩) ∧
    (7 * 24 * 60 * 60 : Nat) = 604800 := by
  refine ⟨?_, ?_, by decide⟩ <;> simp [login, hfind, hpw, hact]

/-- C7 amended witness: the theorem applied to a concrete database with
a non-default configured lifetime of 1 day. -/
theorem C7_login_refresh_row_witness :
    (login ⟨[⟨1, "a@b.c", "alice", "h", UserRole.user, true⟩], [], [], []⟩
      ⟨15, 1⟩ 0 "a@b.c" "pw" (fun _ _ => true)).1.refreshTokens =
      [] ++ [⟨create_refresh_token 1 0 ⟨15, 1⟩, 1, 0 + 7 * 86400, false, none⟩] ∧
    (login ⟨[⟨1, "a@b.c", "alice", "h", UserRole.user, true⟩], [], [], []⟩
      ⟨15, 1⟩ 0 "a@b.c" "pw" (fun _ _ => true)).2 =
      Except.ok (create_access_token 1 0 ⟨15, 1⟩,
        ⟨create_refresh_token 1 0 ⟨15, 1⟩, true, true, "strict", 7 * 24 * 60 * 60⟩) ∧
    (7 * 24 * 60 * 60 : Nat) = 604800 :=
  C7_login_refresh_row
    ⟨[⟨1, "a@b.c", "alice", "h", UserRole.user, true⟩], [], [], []⟩
    ⟨15, 1⟩ 0 "a@b.c" "pw" (fun _ _ => true)
    ⟨1, "a@b.c", "alice", "h", UserRole.user, true⟩ rfl rfl rfl

/-- The row condition of the refresh-endpoint query: same token string,
claimed subject, not revoked, not yet expired (strict comparison). -/
def refreshMatches (presented : Jwt) (userId : Nat) (now : Int)
    (r : RefreshTokenRow) : Bool :=
  r.token == presented && r.userId == userId && !r.isRevoked &&
    decide (now < r.expiresAt)

/-- The ORM mutation of `refresh_token`: mark the first row returned by
the query revoked and record its successor token. -/
def revokeFirst (p : RefreshTokenRow → Bool) (newTok : Jwt) :
    List RefreshTokenRow → List RefreshTokenRow
  | [] => []
  | r :: rest =>
    if p r then
      { r with isRevoked := true, replacedByToken := some newTok } :: rest
    else
      r :: revokeFirst p newTok rest

/-- refresh_token (app/api/auth.py): verify the presented token as type
`refresh` (any failure, including a malformed `sub`, collapses to
Unauthorized "Invalid refresh token" through the bare except), read the
subject with `int(payload.get("sub") or "0")`, look up a live stored
row, rotate: revoke the old row recording the new token, insert the new
row (expiry hardcoded to seven days), set the cookie. -/
def refresh_token (db : DB) (s : Settings) (now : Int) (presented : Jwt) :
    DB × Except ApiError (Jwt × Cookie) :=
  match verify_token presented TokenType.refresh now with
  | Except.error _ =>
    (db, Except.error (ApiError.unauthorized "Invalid refresh token"))
  | Except.ok payload =>
    let userId := payload.sub.getD 0
    match db.refreshTokens.find? (refreshMatches presented userId now) with
    | none =>
      (db, Except.error (ApiError.unauthorized "Invalid or expired refresh token"))
    | some _ =>
      let newAccessToken := create_access_token userId now s
      let newRefreshToken := create_refresh_token userId now s
      let newRow : RefreshTokenRow :=
        ⟨newRefreshToken, userId, now + 7 * 86400, false, none⟩
      let cookie : Cookie :=
        ⟨newRefreshToken, true, true, "strict", 7 * 24 * 60 * 60⟩
      let rows :=
        revokeFirst (refreshMatches presented userId now) newRefreshToken
          db.refreshTokens ++ [newRow]
      ({ db with refreshTokens := rows }, Except.ok (newAccessToken, cookie))

lemma find?_append_left_none {α : Type} {p : α → Bool} {l1 : List α}
    (l2 : List α) (h : ∀ r ∈ l1, p r = false) :
    (l1 ++ l2).find? p = l2.find? p := by
  induction l1 with
  | nil => rfl
  | cons a t ih =>
    rw [List.cons_append, List.find?_cons_of_neg _ (by simp [h a (by simp)])]
    exact ih (fun r hr => h r (by simp [hr]))

lemma revokeFirst_cons (p : RefreshTokenRow → Bool) (newTok : Jwt)
    (r : RefreshTokenRow) (rest : List RefreshTokenRow) :
    revokeFirst p newTok (r :: rest) =
      if p r then { r with isRevoked := true, replacedByToken := some newTok } :: rest
      else r :: revokeFirst p newTok rest := rfl

lemma revokeFirst_append_left {p : RefreshTokenRow → Bool} {newTok : Jwt}
    {l1 : List RefreshTokenRow} (l2 : List RefreshTokenRow)
    (h : ∀ r ∈ l1, p r = false) :
    revokeFirst p newTok (l1 ++ l2) = l1 ++ revokeFirst p newTok l2 := by
  induction l1 with
  | nil => rfl
  | cons a t ih =>
    rw [List.cons_append, revokeFirst_cons, if_neg (by simp [h a (by simp)])]
    rw [ih (fun r hr => h r (by simp [hr]))]
    rfl

lemma revokeFirst_cons_pos {p : RefreshTokenRow → Bool} {newTok : Jwt}
    {r : RefreshTokenRow} (rest : List RefreshTokenRow) (h : p r = true) :
    revokeFirst p newTok (r :: rest) =
      { r with isRevoked := true, replacedByToken := some newTok } :: rest := by
  rw [revokeFirst_cons, if_pos h]

lemma verify_token_ok_eq {tok : Jwt} {ty : TokenType} {n : Int} {p : Jwt}
    (h : verify_token tok ty n = Except.ok p) : p = tok := by
  unfold verify_token jwtDecode at h
  by_cases hc : (tok.sigValid && decide (n ≤ tok.exp)) = true
  · simp only [hc, if_true] at h
    by_cases h2 : tok.typ = ty
    · simp [h2] at h
      exact h.symm
    · simp [h2] at h
  · simp [hc] at h

/-- C1: a successful refresh with a verifiable, stored, unrevoked,
unexpired refresh token revokes exactly that row (setting its
replaced_by_token to the new refresh token), appends exactly one new
non-revoked row for the new token, returns the new pair, and a second
refresh presenting the consumed token fails with Unauthorized at every
later request time. -/
theorem C1_refresh_rotation (db : DB) (s : Settings) (now : Int)
    (presented : Jwt) (uid : Nat) (old : RefreshTokenRow)
    (l1 l2 : List RefreshTokenRow)
    (hsplit : db.refreshTokens = l1 ++ old :: l2)
    (hsig : presented.sigValid = true)
    (hexp : now ≤ presented.exp)
    (htyp : presented.typ = TokenType.refresh)
    (hsub : presented.sub = some uid)
    (htok : old.token = presented)
    (huser : old.userId = uid)
    (hrev : old.isRevoked = false)
    (hlive : now < old.expiresAt)
    (huniq : ∀ r ∈ l1 ++ l2, r.token ≠ presented)
    (hfresh : create_refresh_token uid now s ≠ presented) :
    (refresh_token db s now presented).1.refreshTokens =
      (l1 ++ ({old with isRevoked := true, replacedByToken := some (create_refresh_token uid now s)} :: l2)) ++
        [⟨create_refresh_token uid now s, uid, now + 7 * 86400, false, none⟩] ∧
    (refresh_token db s now presented).2 =
      Except.ok (create_access_token uid now s,
        ⟨create_refresh_token uid now s, true, true, "strict", 7 * 24 * 60 * 60⟩) ∧
    (∀ now', ∃ d,
      (refresh_token (refresh_token db s now presented).1 s now' presented).2 =
        Except.error (ApiError.unauthorized d)) := by
  have hver : verify_token presented TokenType.refresh now = Except.ok presented := by
    simp [verify_token, jwtDecode, hsig, hexp, htyp]
  have hpold : refreshMatches presented uid now old = true := by
    simp [refreshMatches, htok, huser, hrev, hlive]
  have hpl1 : ∀ r ∈ l1, refreshMatches presented uid now r = false := by
    intro r hr
    have hne : r.token ≠ presented := huniq r (List.mem_append_left _ hr)
    simp [refreshMatches, hne]
  have hfind : db.refreshTokens.find? (refreshMatches presented uid now) = some old := by
    rw [hsplit, find?_append_left_none _ hpl1, List.find?_cons_of_pos _ hpold]
  have hrows : (refresh_token db s now presented).1.refreshTokens =
      (l1 ++ ({old with isRevoked := true, replacedByToken := some (create_refresh_token uid now s)} :: l2)) ++
        [⟨create_refresh_token uid now s, uid, now + 7 * 86400, false, none⟩] := by
    simp only [refresh_token, hver, hsub, Option.getD_some, hfind]
    rw [hsplit, revokeFirst_append_left _ hpl1, revokeFirst_cons_pos _ hpold]
  refine ⟨hrows, ?_, ?_⟩
  · simp only [refresh_token, hver, hsub, Option.getD_some, hfind]
  · intro now'
    rcases hv' : verify_token presented TokenType.refresh now' with e | payload
    · exact ⟨"Invalid refresh token", by simp [refresh_token, hv']⟩
    · have hpe : payload = presented := verify_token_ok_eq hv'
      rw [hpe] at hv'
      have hnone : (refresh_token db s now presented).1.refreshTokens.find?
          (refreshMatches presented uid now') = none := by
        rw [hrows]
        apply List.find?_eq_none.mpr
        intro x hx
        rcases List.mem_append.mp hx with hx2 | hx2
        · rcases List.mem_append.mp hx2 with hx3 | hx3
          · have hne : x.token ≠ presented := huniq x (List.mem_append_left _ hx3)
            simp [refreshMatches, hne]
          · rcases List.mem_cons.mp hx3 with hx4 | hx4
            · subst hx4
              simp [refreshMatches]
            · have hne : x.token ≠ presented := huniq x (List.mem_append_right _ hx4)
              simp [refreshMatches, hne]
        · have hx4 := List.mem_singleton.mp hx2
          subst hx4
          simp [refreshMatches, hfresh]
      refine ⟨"Invalid or expired refresh token", ?_⟩
      generalize hG : (refresh_token db s now presented).1 = db2 at hnone ⊢
      simp only [refresh_token, hv', hsub, Option.getD_some, hnone]

/-- C1 witness: a concrete rotation — one stored live refresh token,
consumed at time 100; the second refresh at time 100 is rejected. -/
theorem C1_refresh_rotation_witness :
    (refresh_token
        ⟨[⟨1, "a@b.c", "alice", "h", UserRole.user, true⟩], [],
          [⟨⟨some 1, 604800, TokenType.refresh, true⟩, 1, 604800, false, none⟩], []⟩
        ⟨15, 7⟩ 100 ⟨some 1, 604800, TokenType.refresh, true⟩).1.refreshTokens =
      ([] ++ ({(⟨⟨some 1, 604800, TokenType.refresh, true⟩, 1, 604800, false, none⟩ : RefreshTokenRow) with isRevoked := true, replacedByToken := some (create_refresh_token 1 100 ⟨15, 7⟩)} :: [])) ++
        [⟨create_refresh_token 1 100 ⟨15, 7⟩, 1, 100 + 7 * 86400, false, none⟩] ∧
    (∃ d,
      (refresh_token
        (refresh_token
          ⟨[⟨1, "a@b.c", "alice", "h", UserRole.user, true⟩], [],
            [⟨⟨some 1, 604800, TokenType.refresh, true⟩, 1, 604800, false, none⟩], []⟩
          ⟨15, 7⟩ 100 ⟨some 1, 604800, TokenType.refresh, true⟩).1
        ⟨15, 7⟩ 100 ⟨some 1, 604800, TokenType.refresh, true⟩).2 =
        Except.error (ApiError.unauthorized d)) := by
  have h := C1_refresh_rotation
    ⟨[⟨1, "a@b.c", "alice", "h", UserRole.user, true⟩], [],
      [⟨⟨some 1, 604800, TokenType.refresh, true⟩, 1, 604800, false, none⟩], []⟩
    ⟨15, 7⟩ 100 ⟨some 1, 604800, TokenType.refresh, true⟩ 1
    ⟨⟨some 1, 604800, TokenType.refresh, true⟩, 1, 604800, false, none⟩
    [] [] rfl rfl (by decide) rfl rfl rfl rfl rfl (by decide)
    (by intro r hr; simp at hr) (by decide)
  exact ⟨h.1, h.2.2 100⟩

/-- Whether `needle` occurs as a contiguous run inside `hay`. -/
def hasSub : List Char → List Char → Bool
  | [], needle => needle.isEmpty
  | c :: rest, needle => needle.isPrefixOf (c :: rest) || hasSub rest needle

/-- SQL `column ILIKE '%needle%'`: case-insensitive substring match. -/
def ilikeContains (hay needle : String) : Bool :=
  hasSub hay.toLower.toList needle.toLower.toList

/-- The optional query parameters of GET /api/tasks (app/schemas/task.py
TaskFilters / the Query parameters of list_tasks). -/
structure TaskFilters where
  status : Option TaskStatus := none
  priority : Option TaskPriority := none
  assignedUserId : Option Nat := none
  createdBy : Option Nat := none
  dueDateFrom : Option Int := none
  dueDateTo : Option Int := none
  search : Option String := none
deriving DecidableEq, Repr

/-- `if status: query.filter(Task.status == status)` — every enum value
is a non-empty string, hence truthy. -/
def applyStatusFilter (o : Option TaskStatus) (q : List Task) : List Task :=
  match o with
  | some st => q.filter (fun t => t.status == st)
  | none => q

/-- `if priority: ...`, as for status. -/
def applyPriorityFilter (o : Option TaskPriority) (q : List Task) : List Task :=
  match o with
  | some p => q.filter (fun t => t.priority == p)
  | none => q

/-- `if assigned_user_id: ...` — Python truthiness: the filter is also
skipped when the parameter is 0. -/
def applyAssignedFilter (o : Option Nat) (q : List Task) : List Task :=
  match o with
  | some uid => if uid == 0 then q else q.filter (fun t => t.assignedUserId == some uid)
  | none => q

/-- `if created_by: ...` — skipped when absent or 0. -/
def applyCreatedByFilter (o : Option Nat) (q : List Task) : List Task :=
  match o with
  | some uid => if uid == 0 then q else q.filter (fun t => t.createdBy == uid)
  | none => q

/-- `if due_date_from: query.filter(Task.due_date >= due_date_from)`;
SQL comparison against a NULL due date is not satisfied. -/
def applyDueFromFilter (o : Option Int) (q : List Task) : List Task :=
  match o with
  | some d => q.filter (fun t => match t.dueDate with | some dd => decide (d ≤ dd) | none => false)
  | none => q

/-- `if due_date_to: query.filter(Task.due_date <= due_date_to)`. -/
def applyDueToFilter (o : Option Int) (q : List Task) : List Task :=
  match o with
  | some d => q.filter (fun t => match t.dueDate with | some dd => decide (dd ≤ d) | none => false)
  | none => q

/-- `if search: ...` — skipped for the empty string (falsy); ILIKE over
title or description, a NULL description never matches. -/
def applySearchFilter (o : Option String) (q : List Task) : List Task :=
  match o with
  | some sTxt =>
    if sTxt == "" then q
    else q.filter (fun t =>
      ilikeContains t.title sTxt ||
        (match t.description with | some d => ilikeContains d sTxt | none => false))
  | none => q

/-- The base query of list_tasks: exclude soft-deleted rows, then
restrict non-administrators to tasks they created or are assigned. -/
def baseQuery (db : DB) (caller : User) : List Task :=
  let q := db.tasks.filter (fun t => !t.isDeleted)
  if caller.role != UserRole.admin then
    q.filter (fun t => t.createdBy == caller.id || t.assignedUserId == some caller.id)
  else
    q

/-- All filters of list_tasks applied in source order. -/
def filteredTasks (db : DB) (caller : User) (f : TaskFilters) : List Task :=
  applySearchFilter f.search
    (applyDueToFilter f.dueDateTo
      (applyDueFromFilter f.dueDateFrom
        (applyCreatedByFilter f.createdBy
          (applyAssignedFilter f.assignedUserId
            (applyPriorityFilter f.priority
              (applyStatusFilter f.status (baseQuery db caller)))))))

/-- Insertion step of the `ORDER BY updated_at DESC` sort. -/
def insertByUpdatedDesc (t : Task) : List Task → List Task
  | [] => [t]
  | h :: rest =>
    if h.updatedAt ≤ t.updatedAt then t :: h :: rest else h :: insertByUpdatedDesc t rest

/-- `ORDER BY updated_at DESC` (ties in unspecified order, as in SQL). -/
def orderByUpdatedDesc : List Task → List Task
  | [] => []
  | h :: rest => insertByUpdatedDesc h (orderByUpdatedDesc rest)

/-- The response shape of GET /api/tasks. -/
structure TaskListResult where
  tasks : List Task
  total : Nat
  page : Nat
  size : Nat
deriving DecidableEq, Repr

/-- list_tasks (app/api/tasks.py): base query, filters, order by
updated_at descending, count, then offset/limit pagination. -/
def list_tasks (db : DB) (caller : User) (f : TaskFilters)
    (page size : Nat) : TaskListResult :=
  let q := filteredTasks db caller f
  let sorted := orderByUpdatedDesc q
  { tasks := (sorted.drop ((page - 1) * size)).take size
    total := q.length
    page := page
    size := size }

lemma mem_applyStatusFilter {o : Option TaskStatus} {q : List Task} {x : Task}
    (h : x ∈ applyStatusFilter o q) : x ∈ q := by
  cases o with
  | none => exact h
  | some v => exact List.mem_of_mem_filter h

lemma mem_applyPriorityFilter {o : Option TaskPriority} {q : List Task} {x : Task}
    (h : x ∈ applyPriorityFilter o q) : x ∈ q := by
  cases o with
  | none => exact h
  | some v => exact List.mem_of_mem_filter h

lemma mem_applyAssignedFilter {o : Option Nat} {q : List Task} {x : Task}
    (h : x ∈ applyAssignedFilter o q) : x ∈ q := by
  cases o with
  | none => exact h
  | some uid =>
    simp only [applyAssignedFilter] at h
    split at h
    · exact h
    · exact List.mem_of_mem_filter h

lemma mem_applyCreatedByFilter {o : Option Nat} {q : List Task} {x : Task}
    (h : x ∈ applyCreatedByFilter o q) : x ∈ q := by
  cases o with
  | none => exact h
  | some uid =>
    simp only [applyCreatedByFilter] at h
    split at h
    · exact h
    · exact List.mem_of_mem_filter h

lemma mem_applyDueFromFilter {o : Option Int} {q : List Task} {x : Task}
    (h : x ∈ applyDueFromFilter o q) : x ∈ q := by
  cases o with
  | none => exact h
  | some d => exact List.mem_of_mem_filter h

lemma mem_applyDueToFilter {o : Option Int} {q : List Task} {x : Task}
    (h : x ∈ applyDueToFilter o q) : x ∈ q := by
  cases o with
  | none => exact h
  | some d => exact List.mem_of_mem_filter h

lemma mem_applySearchFilter {o : Option String} {q : List Task} {x : Task}
    (h : x ∈ applySearchFilter o q) : x ∈ q := by
  cases o with
  | none => exact h
  | some sTxt =>
    simp only [applySearchFilter] at h
    split at h
    · exact h
    · exact List.mem_of_mem_filter h

lemma mem_filteredTasks {db : DB} {caller : User} {f : TaskFilters} {x : Task}
    (h : x ∈ filteredTasks db caller f) : x ∈ baseQuery db caller :=
  mem_applyStatusFilter (mem_applyPriorityFilter (mem_applyAssignedFilter
    (mem_applyCreatedByFilter (mem_applyDueFromFilter (mem_applyDueToFilter
      (mem_applySearchFilter h))))))

lemma mem_insertByUpdatedDesc {x t : Task} {l : List Task} :
    x ∈ insertByUpdatedDesc t l ↔ x = t ∨ x ∈ l := by
  induction l with
  | nil => simp [insertByUpdatedDesc]
  | cons h rest ih =>
    simp only [insertByUpdatedDesc]
    split
    · simp
    · simp [ih]
      tauto

lemma mem_orderByUpdatedDesc {x : Task} {l : List Task} :
    x ∈ orderByUpdatedDesc l ↔ x ∈ l := by
  induction l with
  | nil => simp [orderByUpdatedDesc]
  | cons h rest ih => simp [orderByUpdatedDesc, mem_insertByUpdatedDesc, ih]

lemma mem_baseQuery_not_deleted {db : DB} {caller : User} {x : Task}
    (h : x ∈ baseQuery db caller) : x.isDeleted = false := by
  simp only [baseQuery] at h
  split at h
  · have := List.of_mem_filter (List.mem_of_mem_filter h)
    have h2 := List.of_mem_filter h
    have h3 := List.mem_of_mem_filter h
    have h4 := List.of_mem_filter h3
    simpa using h4
  · have h4 := List.of_mem_filter h
    simpa using h4

/-- C2: a caller who is not an administrator only ever receives tasks
they created or are assigned, whatever the filters and pagination. -/
theorem C2_nonadmin_list_scope (db : DB) (caller : User) (f : TaskFilters)
    (page size : Nat) (h : caller.role ≠ UserRole.admin) :
    ∀ t ∈ (list_tasks db caller f page size).tasks,
      t.createdBy = caller.id ∨ t.assignedUserId = some caller.id := by
  intro t ht
  have h1 : t ∈ orderByUpdatedDesc (filteredTasks db caller f) :=
    List.drop_subset _ _ (List.take_subset _ _ ht)
  have h2 : t ∈ filteredTasks db caller f := mem_orderByUpdatedDesc.mp h1
  have h3 : t ∈ baseQuery db caller := mem_filteredTasks h2
  simp only [baseQuery] at h3
  rw [if_pos (by simpa using h)] at h3
  have h4 := List.of_mem_filter h3
  simpa using h4

/-- C2 witness: a concrete non-administrator listing over a database
that also holds a foreign task. -/
theorem C2_nonadmin_list_scope_witness :
    (UserRole.user ≠ UserRole.admin) ∧
    ∀ t ∈ (list_tasks
        ⟨[⟨1, "a@b.c", "alice", "h", UserRole.user, true⟩],
         [⟨1, "mine", none, TaskStatus.todo, TaskPriority.medium, none, none, 1, 0, 0, false⟩,
          ⟨2, "theirs", none, TaskStatus.todo, TaskPriority.medium, none, none, 9, 0, 0, false⟩],
         [], []⟩
        ⟨1, "a@b.c", "alice", "h", UserRole.user, true⟩
        ⟨none, none, none, none, none, none, none⟩ 1 10).tasks,
      t.createdBy = 1 ∨ t.assignedUserId = some 1 :=
  ⟨by decide,
   C2_nonadmin_list_scope
     ⟨[⟨1, "a@b.c", "alice", "h", UserRole.user, true⟩],
      [⟨1, "mine", none, TaskStatus.todo, TaskPriority.medium, none, none, 1, 0, 0, false⟩,
       ⟨2, "theirs", none, TaskStatus.todo, TaskPriority.medium, none, none, 9, 0, 0, false⟩],
      [], []⟩
     ⟨1, "a@b.c", "alice", "h", UserRole.user, true⟩
     ⟨none, none, none, none, none, none, none⟩ 1 10 (by decide)⟩

/-- get_task (app/api/tasks.py): load the non-deleted row or fail with
Not Found, then check view permission. -/
def get_task (db : DB) (caller : User) (taskId : Nat) : Except ApiError Task :=
  match db.tasks.find? (fun t => t.id == taskId && !t.isDeleted) with
  | none => Except.error (ApiError.notFound "Task not found")
  | some task =>
    if caller.role != UserRole.admin && task.createdBy != caller.id &&
        task.assignedUserId != some caller.id then
      Except.error (ApiError.forbidden "Not enough permissions to view this task")
    else
      Except.ok task

/-- TaskUpdate (app/schemas/task.py): every field optional. -/
structure TaskUpdate where
  title : Option String := none
  description : Option String := none
  status : Option TaskStatus := none
  priority : Option TaskPriority := none
  dueDate : Option Int := none
  assignedUserId : Option Nat := none
deriving DecidableEq, Repr

/-- The conditional field updates of update_task: a field is written
only when present (not-None) in the body. -/
def applyTaskUpdate (t : Task) (u : TaskUpdate) : Task :=
  { t with
    title := match u.title with | some v => v | none => t.title
    description := match u.description with | some v => some v | none => t.description
    status := match u.status with | some v => v | none => t.status
    priority := match u.priority with | some v => v | none => t.priority
    dueDate := match u.dueDate with | some v => some v | none => t.dueDate
    assignedUserId := match u.assignedUserId with | some v => some v | none => t.assignedUserId }

/-- The referenced-user validation of update_task: only performed when
assigned_user_id is provided and truthy (non-zero). -/
def assignedUserMissing (db : DB) (o : Option Nat) : Bool :=
  match o with
  | some uid => uid != 0 && (db.users.find? (fun us => us.id == uid)).isNone
  | none => false

/-- The storage layer's flush of a mutated row (models/task.py:
`updated_at ... onupdate=func.now()`): when any column value differs
from the loaded row `t0`, an UPDATE is emitted and `updated_at` is
refreshed to the current time; a net no-op emits no UPDATE and leaves
the timestamp untouched. -/
def commitRow (t0 t' : Task) (now : Int) : Task :=
  if t' = t0 then t' else { t' with updatedAt := now }

/-- Installs a flushed row into the table by primary key. -/
def replaceTask (db : DB) (t' : Task) : DB :=
  { db with tasks := db.tasks.map (fun t => if t.id == t'.id then t' else t) }

/-- update_task (app/api/tasks.py): Not Found for absent or soft-deleted
rows, Forbidden unless administrator or creator, Bad Request when a
provided non-zero assigned_user_id references no user, else apply the
provided fields, commit (the storage layer refreshing updated_at on an
effective change), db.refresh the row, and log TASK_UPDATED. -/
def update_task (db : DB) (caller : User) (taskId : Nat) (u : TaskUpdate)
    (now : Int) : DB × Except ApiError Task :=
  match db.tasks.find? (fun t => t.id == taskId && !t.isDeleted) with
  | none => (db, Except.error (ApiError.notFound "Task not found"))
  | some task =>
    if caller.role != UserRole.admin && task.createdBy != caller.id then
      (db, Except.error (ApiError.forbidden "Not enough permissions to update this task"))
    else if assignedUserMissing db u.assignedUserId then
      (db, Except.error (ApiError.badRequest "Assigned user not found"))
    else
      let t' := commitRow task (applyTaskUpdate task u) now
      let db' := replaceTask db t'
      ({ db' with auditLogs := db'.auditLogs ++ [⟨caller.id, some t'.id, "TASK_UPDATED", now⟩] },
       Except.ok t')

/-- delete_task (app/api/tasks.py): soft delete. -/
def delete_task (db : DB) (caller : User) (taskId : Nat) (now : Int) :
    DB × Except ApiError String :=
  match db.tasks.find? (fun t => t.id == taskId && !t.isDeleted) with
  | none => (db, Except.error (ApiError.notFound "Task not found"))
  | some task =>
    if caller.role != UserRole.admin && task.createdBy != caller.id then
      (db, Except.error (ApiError.forbidden "Not enough permissions to delete this task"))
    else
      let t' := commitRow task { task with isDeleted := true } now
      let db' := replaceTask db t'
      ({ db' with auditLogs := db'.auditLogs ++ [⟨caller.id, some task.id, "TASK_DELETED", now⟩] },
       Except.ok "Task deleted successfully")

/-- assign_task (app/api/tasks.py): the get_admin_user dependency
rejects non-administrators with Forbidden before the handler runs; then
Not Found for absent/soft-deleted tasks, Bad Request for a missing
target user, else overwrite the assignee and log TASK_ASSIGNED. -/
def assign_task (db : DB) (caller : User) (taskId userId : Nat) (now : Int) :
    DB × Except ApiError String :=
  if caller.role != UserRole.admin then
    (db, Except.error (ApiError.forbidden "Not enough permissions"))
  else
    match db.tasks.find? (fun t => t.id == taskId && !t.isDeleted) with
    | none => (db, Except.error (ApiError.notFound "Task not found"))
    | some task =>
      match db.users.find? (fun us => us.id == userId) with
      | none => (db, Except.error (ApiError.badRequest "User not found"))
      | some _ =>
        let t' := commitRow task { task with assignedUserId := some userId } now
        let db' := replaceTask db t'
        ({ db' with auditLogs := db'.auditLogs ++ [⟨caller.id, some task.id, "TASK_ASSIGNED", now⟩] },
         Except.ok "assigned")

/-- Response of GET /api/tasks/assigned/(user_id). -/
structure AssignedTasksResult where
  userId : Nat
  username : String
  tasks : List Task
deriving DecidableEq, Repr

/-- get_tasks_assigned_to_user (app/api/tasks.py), admin-only
dependency, then the non-deleted tasks assigned to that user. -/
def get_tasks_assigned_to_user (db : DB) (caller : User) (userId : Nat) :
    Except ApiError AssignedTasksResult :=
  if caller.role != UserRole.admin then
    Except.error (ApiError.forbidden "Not enough permissions")
  else
    match db.users.find? (fun u => u.id == userId) with
    | none => Except.error (ApiError.notFound "User not found")
    | some user =>
      Except.ok ⟨userId, user.username,
        db.tasks.filter (fun t => t.assignedUserId == some userId && !t.isDeleted)⟩

lemma find?_deleted_none {db : DB} {t : Task}
    (hnodup : (db.tasks.map Task.id).Nodup) (ht : t ∈ db.tasks)
    (hdel : t.isDeleted = true) :
    db.tasks.find? (fun x => x.id == t.id && !x.isDeleted) = none := by
  apply List.find?_eq_none.mpr
  intro x hx hcontra
  simp only [Bool.and_eq_true, beq_iff_eq, Bool.not_eq_true'] at hcontra
  obtain ⟨hid, hnd⟩ := hcontra
  have hxt : x = t := List.inj_on_of_nodup_map hnodup hx ht hid
  rw [hxt, hdel] at hnd
  exact absurd hnd (by simp)

/-- C3 counterexample: a non-administrator calling the assign endpoint
on a soft-deleted task is rejected by the admin gate with Forbidden,
not with Not Found as the claim states for every caller. -/
theorem C3_counterexample :
    (assign_task
        ⟨[⟨2, "b@b.c", "bob", "h", UserRole.user, true⟩],
         [⟨1, "x", none, TaskStatus.todo, TaskPriority.medium, none, none, 2, 0, 0, true⟩],
         [], []⟩
        ⟨2, "b@b.c", "bob", "h", UserRole.user, true⟩ 1 2 0).2 =
      Except.error (ApiError.forbidden "Not enough permissions") ∧
    (∀ d, ApiError.forbidden "Not enough permissions" ≠ ApiError.notFound d) :=
  ⟨rfl, fun _ h => ApiError.noConfusion h⟩

/-- C3 amended: a soft-deleted task never appears in the list endpoints,
and the detail, update and delete endpoints fail with Not Found for
every caller, leaving the state unchanged; the admin-only assign
endpoint fails with Not Found for administrator callers (for
non-administrators the admin gate rejects with Forbidden first). -/
theorem C3_soft_deleted_invisible (db : DB) (t : Task)
    (hnodup : (db.tasks.map Task.id).Nodup) (ht : t ∈ db.tasks)
    (hdel : t.isDeleted = true) :
    (∀ caller f page size, t ∉ (list_tasks db caller f page size).tasks) ∧
    (∀ caller uid r, get_tasks_assigned_to_user db caller uid = Except.ok r →
      t ∉ r.tasks) ∧
    (∀ caller, get_task db caller t.id =
      Except.error (ApiError.notFound "Task not found")) ∧
    (∀ caller u now, update_task db caller t.id u now =
      (db, Except.error (ApiError.notFound "Task not found"))) ∧
    (∀ caller now, delete_task db caller t.id now =
      (db, Except.error (ApiError.notFound "Task not found"))) ∧
    (∀ caller uid now, caller.role = UserRole.admin →
      assign_task db caller t.id uid now =
        (db, Except.error (ApiError.notFound "Task not found"))) := by
  have hfind : ∀ tid, tid = t.id →
      db.tasks.find? (fun x => x.id == tid && !x.isDeleted) = none := by
    intro tid htid
    rw [htid]
    exact find?_deleted_none hnodup ht hdel
  refine ⟨?_, ?_, ?_, ?_, ?_, ?_⟩
  · intro caller f page size hmem
    have h1 : t ∈ orderByUpdatedDesc (filteredTasks db caller f) :=
      List.drop_subset _ _ (List.take_subset _ _ hmem)
    have h2 : t ∈ baseQuery db caller :=
      mem_filteredTasks (mem_orderByUpdatedDesc.mp h1)
    rw [mem_baseQuery_not_deleted h2] at hdel
    exact absurd hdel (by simp)
  · intro caller uid r hok hmem
    simp only [get_tasks_assigned_to_user] at hok
    split at hok
    · exact absurd hok (by simp)
    · rcases hf : db.users.find? (fun u => u.id == uid) with _ | user
      · rw [hf] at hok
        exact absurd hok (by simp)
      · rw [hf] at hok
        have hr : r = ⟨uid, user.username,
            db.tasks.filter (fun x => x.assignedUserId == some uid && !x.isDeleted)⟩ := by
          cases hok
          rfl
        rw [hr] at hmem
        have := List.of_mem_filter hmem
        simp only [Bool.and_eq_true, Bool.not_eq_true'] at this
        rw [this.2] at hdel
        exact absurd hdel (by simp)
  · intro caller
    simp [get_task, hfind t.id rfl]
  · intro caller u now
    simp [update_task, hfind t.id rfl]
  · intro caller now
    simp [delete_task, hfind t.id rfl]
  · intro caller uid now hadmin
    simp [assign_task, hadmin, hfind t.id rfl]

/-- C3 witness: the theorem applied to a concrete database holding one
soft-deleted task. -/
theorem C3_soft_deleted_invisible_witness :
    (∀ caller f page size, (⟨1, "x", none, TaskStatus.todo, TaskPriority.medium,
        none, none, 2, 0, 0, true⟩ : Task) ∉
      (list_tasks ⟨[⟨2, "b@b.c", "bob", "h", UserRole.user, true⟩],
        [⟨1, "x", none, TaskStatus.todo, TaskPriority.medium, none, none, 2, 0, 0, true⟩],
        [], []⟩ caller f page size).tasks) ∧
    (∀ caller uid r, get_tasks_assigned_to_user
        ⟨[⟨2, "b@b.c", "bob", "h", UserRole.user, true⟩],
         [⟨1, "x", none, TaskStatus.todo, TaskPriority.medium, none, none, 2, 0, 0, true⟩],
         [], []⟩ caller uid = Except.ok r →
      (⟨1, "x", none, TaskStatus.todo, TaskPriority.medium, none, none, 2, 0, 0, true⟩ : Task) ∉ r.tasks) ∧
    (∀ caller, get_task ⟨[⟨2, "b@b.c", "bob", "h", UserRole.user, true⟩],
        [⟨1, "x", none, TaskStatus.todo, TaskPriority.medium, none, none, 2, 0, 0, true⟩],
        [], []⟩ caller 1 = Except.error (ApiError.notFound "Task not found")) ∧
    (∀ caller u now, update_task ⟨[⟨2, "b@b.c", "bob", "h", UserRole.user, true⟩],
        [⟨1, "x", none, TaskStatus.todo, TaskPriority.medium, none, none, 2, 0, 0, true⟩],
        [], []⟩ caller 1 u now =
      (⟨[⟨2, "b@b.c", "bob", "h", UserRole.user, true⟩],
        [⟨1, "x", none, TaskStatus.todo, TaskPriority.medium, none, none, 2, 0, 0, true⟩],
        [], []⟩, Except.error (ApiError.notFound "Task not found"))) ∧
    (∀ caller now, delete_task ⟨[⟨2, "b@b.c", "bob", "h", UserRole.user, true⟩],
        [⟨1, "x", none, TaskStatus.todo, TaskPriority.medium, none, none, 2, 0, 0, true⟩],
        [], []⟩ caller 1 now =
      (⟨[⟨2, "b@b.c", "bob", "h", UserRole.user, true⟩],
        [⟨1, "x", none, TaskStatus.todo, TaskPriority.medium, none, none, 2, 0, 0, true⟩],
        [], []⟩, Except.error (ApiError.notFound "Task not found"))) ∧
    (∀ caller uid now, caller.role = UserRole.admin →
      assign_task ⟨[⟨2, "b@b.c", "bob", "h", UserRole.user, true⟩],
        [⟨1, "x", none, TaskStatus.todo, TaskPriority.medium, none, none, 2, 0, 0, true⟩],
        [], []⟩ caller 1 uid now =
      (⟨[⟨2, "b@b.c", "bob", "h", UserRole.user, true⟩],
        [⟨1, "x", none, TaskStatus.todo, TaskPriority.medium, none, none, 2, 0, 0, true⟩],
        [], []⟩, Except.error (ApiError.notFound "Task not found"))) :=
  C3_soft_deleted_invisible
    ⟨[⟨2, "b@b.c", "bob", "h", UserRole.user, true⟩],
     [⟨1, "x", none, TaskStatus.todo, TaskPriority.medium, none, none, 2, 0, 0, true⟩],
     [], []⟩
    ⟨1, "x", none, TaskStatus.todo, TaskPriority.medium, none, none, 2, 0, 0, true⟩
    (by decide) (by decide) rfl

lemma commitRow_title (t0 t' : Task) (now : Int) :
    (commitRow t0 t' now).title = t'.title := by
  unfold commitRow; split <;> rfl

lemma commitRow_description (t0 t' : Task) (now : Int) :
    (commitRow t0 t' now).description = t'.description := by
  unfold commitRow; split <;> rfl

lemma commitRow_status (t0 t' : Task) (now : Int) :
    (commitRow t0 t' now).status = t'.status := by
  unfold commitRow; split <;> rfl

lemma commitRow_priority (t0 t' : Task) (now : Int) :
    (commitRow t0 t' now).priority = t'.priority := by
  unfold commitRow; split <;> rfl

lemma commitRow_dueDate (t0 t' : Task) (now : Int) :
    (commitRow t0 t' now).dueDate = t'.dueDate := by
  unfold commitRow; split <;> rfl

lemma commitRow_assignedUserId (t0 t' : Task) (now : Int) :
    (commitRow t0 t' now).assignedUserId = t'.assignedUserId := by
  unfold commitRow; split <;> rfl

lemma commitRow_id (t0 t' : Task) (now : Int) :
    (commitRow t0 t' now).id = t'.id := by
  unfold commitRow; split <;> rfl

lemma commitRow_createdBy (t0 t' : Task) (now : Int) :
    (commitRow t0 t' now).createdBy = t'.createdBy := by
  unfold commitRow; split <;> rfl

lemma commitRow_createdAt (t0 t' : Task) (now : Int) :
    (commitRow t0 t' now).createdAt = t'.createdAt := by
  unfold commitRow; split <;> rfl

lemma commitRow_isDeleted (t0 t' : Task) (now : Int) :
    (commitRow t0 t' now).isDeleted = t'.isDeleted := by
  unfold commitRow; split <;> rfl

/-- C9 counterexample: a successful update whose body provides only a
new title also changes the task's updated_at — the storage layer's
onupdate refresh — so "all fields not mentioned in the body are
unchanged" fails: the stored row had updated_at 0, the returned row has
updated_at 5. -/
theorem C9_counterexample :
    (update_task
        ⟨[⟨1, "a@b.c", "alice", "h", UserRole.user, true⟩],
         [⟨1, "old", some "d", TaskStatus.todo, TaskPriority.medium, some 5, some 2, 1, 0, 0, false⟩],
         [], []⟩
        ⟨1, "a@b.c", "alice", "h", UserRole.user, true⟩ 1
        ⟨some "new", none, none, none, none, none⟩ 5).2 =
      Except.ok ⟨1, "new", some "d", TaskStatus.todo, TaskPriority.medium, some 5, some 2, 1, 0, 5, false⟩ ∧
    ((⟨[⟨1, "a@b.c", "alice", "h", UserRole.user, true⟩],
       [⟨1, "old", some "d", TaskStatus.todo, TaskPriority.medium, some 5, some 2, 1, 0, 0, false⟩],
       [], []⟩ : DB).tasks.find? (fun x => x.id == 1 && !x.isDeleted) =
      some ⟨1, "old", some "d", TaskStatus.todo, TaskPriority.medium, some 5, some 2, 1, 0, 0, false⟩) ∧
    (5 : Int) ≠ 0 :=
  ⟨rfl, rfl, by decide⟩

/-- C9 amended: in a successful update, every absent-or-null body field
leaves the corresponding task field unchanged — in particular
description, due_date and assigned_user_id can never be reset to
null — and id, created_by, created_at and is_deleted are unchanged;
updated_at, though absent from the body, is refreshed to the request
time by the storage layer exactly when the update changes some column,
and keeps its value when the update is a net no-op. -/
theorem C9_update_frame (db : DB) (caller : User) (taskId : Nat)
    (u : TaskUpdate) (now : Int) (t t' : Task)
    (hfind : db.tasks.find? (fun x => x.id == taskId && !x.isDeleted) = some t)
    (hok : (update_task db caller taskId u now).2 = Except.ok t') :
    (u.title = none → t'.title = t.title) ∧
    (u.description = none → t'.description = t.description) ∧
    (u.status = none → t'.status = t.status) ∧
    (u.priority = none → t'.priority = t.priority) ∧
    (u.dueDate = none → t'.dueDate = t.dueDate) ∧
    (u.assignedUserId = none → t'.assignedUserId = t.assignedUserId) ∧
    (t.description ≠ none → t'.description ≠ none) ∧
    (t.dueDate ≠ none → t'.dueDate ≠ none) ∧
    (t.assignedUserId ≠ none → t'.assignedUserId ≠ none) ∧
    t'.id = t.id ∧ t'.createdBy = t.createdBy ∧ t'.createdAt = t.createdAt ∧
    t'.isDeleted = t.isDeleted ∧
    (applyTaskUpdate t u = t → t'.updatedAt = t.updatedAt) ∧
    (applyTaskUpdate t u ≠ t → t'.updatedAt = now) := by
  simp only [update_task, hfind] at hok
  split at hok
  · exact absurd hok (by simp)
  · split at hok
    · exact absurd hok (by simp)
    · simp only [Except.ok.injEq] at hok
      subst hok
      refine ⟨?_, ?_, ?_, ?_, ?_, ?_, ?_, ?_, ?_, ?_, ?_, ?_, ?_, ?_, ?_⟩
      · intro h; simp [commitRow_title, applyTaskUpdate, h]
      · intro h; simp [commitRow_description, applyTaskUpdate, h]
      · intro h; simp [commitRow_status, applyTaskUpdate, h]
      · intro h; simp [commitRow_priority, applyTaskUpdate, h]
      · intro h; simp [commitRow_dueDate, applyTaskUpdate, h]
      · intro h; simp [commitRow_assignedUserId, applyTaskUpdate, h]
      · intro h; cases hd : u.description <;>
          simp [commitRow_description, applyTaskUpdate, hd, h]
      · intro h; cases hd : u.dueDate <;>
          simp [commitRow_dueDate, applyTaskUpdate, hd, h]
      · intro h; cases hd : u.assignedUserId <;>
          simp [commitRow_assignedUserId, applyTaskUpdate, hd, h]
      · simp [commitRow_id, applyTaskUpdate]
      · simp [commitRow_createdBy, applyTaskUpdate]
      · simp [commitRow_createdAt, applyTaskUpdate]
      · simp [commitRow_isDeleted, applyTaskUpdate]
      · intro h; simp [commitRow, h]
      · intro h; simp [commitRow, h]

/-- C9 witness: a concrete successful update providing only a new
title leaves the other body fields unchanged and refreshes updated_at
to the request time, since the title did change. -/
theorem C9_update_frame_witness :
    ((⟨some "new", none, none, none, none, none⟩ : TaskUpdate).description = none →
      (commitRow
        ⟨1, "old", some "d", TaskStatus.todo, TaskPriority.medium, some 5, some 2, 1, 0, 0, false⟩
        (applyTaskUpdate
          ⟨1, "old", some "d", TaskStatus.todo, TaskPriority.medium, some 5, some 2, 1, 0, 0, false⟩
          ⟨some "new", none, none, none, none, none⟩) 5).description = some "d") ∧
    (applyTaskUpdate
        ⟨1, "old", some "d", TaskStatus.todo, TaskPriority.medium, some 5, some 2, 1, 0, 0, false⟩
        ⟨some "new", none, none, none, none, none⟩ ≠
      ⟨1, "old", some "d", TaskStatus.todo, TaskPriority.medium, some 5, some 2, 1, 0, 0, false⟩ →
      (commitRow
        ⟨1, "old", some "d", TaskStatus.todo, TaskPriority.medium, some 5, some 2, 1, 0, 0, false⟩
        (applyTaskUpdate
          ⟨1, "old", some "d", TaskStatus.todo, TaskPriority.medium, some 5, some 2, 1, 0, 0, false⟩
          ⟨some "new", none, none, none, none, none⟩) 5).updatedAt = 5) := by
  have h := C9_update_frame
    ⟨[⟨1, "a@b.c", "alice", "h", UserRole.user, true⟩],
     [⟨1, "old", some "d", TaskStatus.todo, TaskPriority.medium, some 5, some 2, 1, 0, 0, false⟩],
     [], []⟩
    ⟨1, "a@b.c", "alice", "h", UserRole.user, true⟩ 1
    ⟨some "new", none, none, none, none, none⟩ 5
    ⟨1, "old", some "d", TaskStatus.todo, TaskPriority.medium, some 5, some 2, 1, 0, 0, false⟩
    (commitRow
      ⟨1, "old", some "d", TaskStatus.todo, TaskPriority.medium, some 5, some 2, 1, 0, 0, false⟩
      (applyTaskUpdate
        ⟨1, "old", some "d", TaskStatus.todo, TaskPriority.medium, some 5, some 2, 1, 0, 0, false⟩
        ⟨some "new", none, none, none, none, none⟩) 5)
    rfl rfl
  exact ⟨fun hn => (h.2.1 hn).trans rfl, h.2.2.2.2.2.2.2.2.2.2.2.2.2.2⟩

/-- Response of GET /api/admin/system-stats. -/
structure SystemStats where
  totalUsers : Nat
  activeUsers : Nat
  totalTasks : Nat
  tasksByStatus : List (TaskStatus × Nat)
  tasksByPriority : List (TaskPriority × Nat)
  recentActivities : Nat
deriving DecidableEq, Repr

/-- The per-status count of the stats loop: non-deleted tasks with that
status. -/
def statusCount (db : DB) (st : TaskStatus) : Nat :=
  (db.tasks.filter (fun t => t.status == st && !t.isDeleted)).length

/-- The per-priority count of the stats loop. -/
def priorityCount (db : DB) (p : TaskPriority) : Nat :=
  (db.tasks.filter (fun t => t.priority == p && !t.isDeleted)).length

/-- get_system_stats (app/api/admin.py), behind the admin dependency:
total/active users, non-deleted task total, per-status and per-priority
counts over the enum values in declaration order, and audit entries of
the last 24 hours. -/
def get_system_stats (db : DB) (now : Int) : SystemStats :=
  { totalUsers := db.users.length
    activeUsers := (db.users.filter (fun u => u.isActive)).length
    totalTasks := (db.tasks.filter (fun t => !t.isDeleted)).length
    tasksByStatus := [TaskStatus.todo, TaskStatus.inProgress, TaskStatus.done].map
      (fun st => (st, statusCount db st))
    tasksByPriority := [TaskPriority.low, TaskPriority.medium, TaskPriority.high,
      TaskPriority.urgent].map (fun p => (p, priorityCount db p))
    recentActivities := (db.auditLogs.filter
      (fun a => decide (now - 86400 ≤ a.timestamp))).length }

lemma status_partition (l : List Task) :
    (l.filter (fun t => t.status == TaskStatus.todo && !t.isDeleted)).length +
      (l.filter (fun t => t.status == TaskStatus.inProgress && !t.isDeleted)).length +
      (l.filter (fun t => t.status == TaskStatus.done && !t.isDeleted)).length =
      (l.filter (fun t => !t.isDeleted)).length := by
  induction l with
  | nil => rfl
  | cons h rest ih =>
    rcases hs : h.status <;> rcases hd : h.isDeleted <;>
      simp [List.filter_cons, hs, hd] <;> omega

lemma priority_partition (l : List Task) :
    (l.filter (fun t => t.priority == TaskPriority.low && !t.isDeleted)).length +
      (l.filter (fun t => t.priority == TaskPriority.medium && !t.isDeleted)).length +
      (l.filter (fun t => t.priority == TaskPriority.high && !t.isDeleted)).length +
      (l.filter (fun t => t.priority == TaskPriority.urgent && !t.isDeleted)).length =
      (l.filter (fun t => !t.isDeleted)).length := by
  induction l with
  | nil => rfl
  | cons h rest ih =>
    rcases hp : h.priority <;> rcases hd : h.isDeleted <;>
      simp [List.filter_cons, hp, hd] <;> omega

/-- C8: the system statistics count exactly the User rows, the active
User rows and the non-deleted Task rows, and the by-status/by-priority
maps hold the per-value counts of non-deleted tasks over all three
TaskStatus and all four TaskPriority values, each summing to
total_tasks (an exhaustive, disjoint partition). -/
theorem C8_system_stats_correct (db : DB) (now : Int) :
    (get_system_stats db now).totalUsers = db.users.length ∧
    (get_system_stats db now).activeUsers =
      (db.users.filter (fun u => u.isActive)).length ∧
    (get_system_stats db now).totalTasks =
      (db.tasks.filter (fun t => !t.isDeleted)).length ∧
    (get_system_stats db now).tasksByStatus =
      [(TaskStatus.todo, statusCount db TaskStatus.todo),
       (TaskStatus.inProgress, statusCount db TaskStatus.inProgress),
       (TaskStatus.done, statusCount db TaskStatus.done)] ∧
    (get_system_stats db now).tasksByPriority =
      [(TaskPriority.low, priorityCount db TaskPriority.low),
       (TaskPriority.medium, priorityCount db TaskPriority.medium),
       (TaskPriority.high, priorityCount db TaskPriority.high),
       (TaskPriority.urgent, priorityCount db TaskPriority.urgent)] ∧
    statusCount db TaskStatus.todo + statusCount db TaskStatus.inProgress +
      statusCount db TaskStatus.done = (get_system_stats db now).totalTasks ∧
    priorityCount db TaskPriority.low + priorityCount db TaskPriority.medium +
      priorityCount db TaskPriority.high + priorityCount db TaskPriority.urgent =
      (get_system_stats db now).totalTasks :=
  ⟨rfl, rfl, rfl, rfl, rfl, status_partition db.tasks, priority_partition db.tasks⟩

/-- Response of POST /api/admin/bulk-assign (counts only; the message
string carries no further data). -/
structure BulkAssignResult where
  updatedTasks : Nat
  totalTasks : Nat
deriving DecidableEq, Repr

/-- bulk_assign_tasks (app/api/admin.py), behind the admin dependency:
Bad Request when the target user is missing or when the number of
non-deleted tasks whose id is in the list differs from the length of
the list; otherwise reassign every selected task whose assignee
differs (the storage layer refreshing updated_at on those rows at
commit) and report updated vs. total counts. -/
def bulk_assign_tasks (db : DB) (caller : User) (taskIds : List Nat)
    (userId : Nat) (now : Int) : DB × Except ApiError BulkAssignResult :=
  if caller.role != UserRole.admin then
    (db, Except.error (ApiError.forbidden "Not enough permissions"))
  else
    match db.users.find? (fun u => u.id == userId) with
    | none => (db, Except.error (ApiError.badRequest "User not found"))
    | some _ =>
      let tasks := db.tasks.filter (fun t => taskIds.contains t.id && !t.isDeleted)
      if tasks.length != taskIds.length then
        (db, Except.error (ApiError.badRequest "Some tasks not found"))
      else
        let updatedCount := (tasks.filter (fun t => t.assignedUserId != some userId)).length
        let newTasks := db.tasks.map (fun t =>
          if taskIds.contains t.id && !t.isDeleted && t.assignedUserId != some userId then
            { t with assignedUserId := some userId, updatedAt := now }
          else t)
        ({ db with tasks := newTasks }, Except.ok ⟨updatedCount, tasks.length⟩)

/-- C6 counterexample: duplicate task ids.  The target user exists and
every requested task id resolves to a non-deleted task, yet the call
fails with Bad Request, because the row count of the id-set query (1)
differs from the length of the id list (2). -/
theorem C6_counterexample :
    (bulk_assign_tasks
        ⟨[⟨1, "a@b.c", "alice", "h", UserRole.admin, true⟩,
          ⟨2, "b@b.c", "bob", "h", UserRole.user, true⟩],
         [⟨1, "x", none, TaskStatus.todo, TaskPriority.medium, none, none, 1, 0, 0, false⟩],
         [], []⟩
        ⟨1, "a@b.c", "alice", "h", UserRole.admin, true⟩ [1, 1] 2 0).2 =
      Except.error (ApiError.badRequest "Some tasks not found") ∧
    (∃ u ∈ ([⟨1, "a@b.c", "alice", "h", UserRole.admin, true⟩,
        ⟨2, "b@b.c", "bob", "h", UserRole.user, true⟩] : List User), u.id = 2) ∧
    (∀ i ∈ [1, 1], ∃ tk ∈ ([⟨1, "x", none, TaskStatus.todo, TaskPriority.medium,
        none, none, 1, 0, 0, false⟩] : List Task), tk.id = i ∧ tk.isDeleted = false) :=
  ⟨rfl, by decide, by decide⟩

/-- C6 amended: for an administrator caller, bulk-assign fails with Bad
Request exactly when the target user does not exist or the number of
non-deleted tasks whose id occurs in the requested list differs from
the length of the list (so duplicate ids fail even when each id
resolves); every failure leaves the state unchanged; on success the
assignee of every selected task whose assignee differs is overwritten
and the updated/total counts are returned. -/
theorem C6_bulk_assign_spec (db : DB) (caller : User) (taskIds : List Nat)
    (userId : Nat) (now : Int) (hadmin : caller.role = UserRole.admin) :
    ((∃ d, (bulk_assign_tasks db caller taskIds userId now).2 =
        Except.error (ApiError.badRequest d)) ↔
      (db.users.find? (fun u => u.id == userId) = none ∨
        (db.tasks.filter (fun t => taskIds.contains t.id && !t.isDeleted)).length ≠
          taskIds.length)) ∧
    ((∃ e, (bulk_assign_tasks db caller taskIds userId now).2 = Except.error e) →
      (bulk_assign_tasks db caller taskIds userId now).1 = db) ∧
    (¬(db.users.find? (fun u => u.id == userId) = none ∨
        (db.tasks.filter (fun t => taskIds.contains t.id && !t.isDeleted)).length ≠
          taskIds.length) →
      (bulk_assign_tasks db caller taskIds userId now).1.tasks =
        db.tasks.map (fun t =>
          if taskIds.contains t.id && !t.isDeleted && t.assignedUserId != some userId then
            { t with assignedUserId := some userId, updatedAt := now }
          else t) ∧
      (bulk_assign_tasks db caller taskIds userId now).2 =
        Except.ok ⟨((db.tasks.filter (fun t => taskIds.contains t.id && !t.isDeleted)).filter
            (fun t => t.assignedUserId != some userId)).length,
          (db.tasks.filter (fun t => taskIds.contains t.id && !t.isDeleted)).length⟩) := by
  rcases hf : db.users.find? (fun u => u.id == userId) with _ | u
  · have hres : bulk_assign_tasks db caller taskIds userId now =
        (db, Except.error (ApiError.badRequest "User not found")) := by
      simp [bulk_assign_tasks, hadmin, hf]
    exact ⟨⟨fun _ => Or.inl hf, fun _ => ⟨"User not found", by rw [hres]⟩⟩,
           fun _ => by rw [hres],
           fun hcon => absurd (Or.inl hf) hcon⟩
  · by_cases hlen :
      (db.tasks.filter (fun t => taskIds.contains t.id && !t.isDeleted)).length =
        taskIds.length
    · have hres : bulk_assign_tasks db caller taskIds userId now =
          ({ db with tasks := db.tasks.map (fun t =>
              if taskIds.contains t.id && !t.isDeleted && t.assignedUserId != some userId then
                { t with assignedUserId := some userId, updatedAt := now }
              else t) },
           Except.ok ⟨((db.tasks.filter (fun t => taskIds.contains t.id && !t.isDeleted)).filter
              (fun t => t.assignedUserId != some userId)).length,
            (db.tasks.filter (fun t => taskIds.contains t.id && !t.isDeleted)).length⟩) := by
        have hlen2 : (db.tasks.filter
            (fun t => decide (t.id ∈ taskIds) && !t.isDeleted)).length = taskIds.length := by
          simpa using hlen
        simp [bulk_assign_tasks, hadmin, hf, hlen2]
      refine ⟨⟨?_, ?_⟩, ?_, fun _ => ?_⟩
      · intro ⟨d, hd⟩
        rw [hres] at hd
        exact absurd hd (by simp)
      · intro hx
        rcases hx with hx | hx
        · rw [hf] at hx
          exact absurd hx (by simp)
        · exact absurd hlen hx
      · intro ⟨e, he⟩
        rw [hres] at he
        exact absurd he (by simp)
      · rw [hres]
        exact ⟨rfl, rfl⟩
    · have hres : bulk_assign_tasks db caller taskIds userId now =
          (db, Except.error (ApiError.badRequest "Some tasks not found")) := by
        have hlen2 : ¬(db.tasks.filter
            (fun t => decide (t.id ∈ taskIds) && !t.isDeleted)).length = taskIds.length := by
          simpa using hlen
        simp [bulk_assign_tasks, hadmin, hf, hlen2]
      exact ⟨⟨fun _ => Or.inr hlen, fun _ => ⟨"Some tasks not found", by rw [hres]⟩⟩,
             fun _ => by rw [hres],
             fun hcon => absurd (Or.inr hlen) hcon⟩

/-- C6 amended witness: a concrete successful bulk assignment of one
task to user 2 by an administrator. -/
theorem C6_bulk_assign_spec_witness :
    (¬((⟨[⟨1, "a@b.c", "alice", "h", UserRole.admin, true⟩,
          ⟨2, "b@b.c", "bob", "h", UserRole.user, true⟩],
        [⟨1, "x", none, TaskStatus.todo, TaskPriority.medium, none, none, 1, 0, 0, false⟩],
        [], []⟩ : DB).users.find? (fun u => u.id == 2) = none ∨
      ((⟨[⟨1, "a@b.c", "alice", "h", UserRole.admin, true⟩,
          ⟨2, "b@b.c", "bob", "h", UserRole.user, true⟩],
        [⟨1, "x", none, TaskStatus.todo, TaskPriority.medium, none, none, 1, 0, 0, false⟩],
        [], []⟩ : DB).tasks.filter
          (fun t => [1].contains t.id && !t.isDeleted)).length ≠ [1].length)) ∧
    (bulk_assign_tasks
        ⟨[⟨1, "a@b.c", "alice", "h", UserRole.admin, true⟩,
          ⟨2, "b@b.c", "bob", "h", UserRole.user, true⟩],
         [⟨1, "x", none, TaskStatus.todo, TaskPriority.medium, none, none, 1, 0, 0, false⟩],
         [], []⟩
        ⟨1, "a@b.c", "alice", "h", UserRole.admin, true⟩ [1] 2 3).2 =
      Except.ok ⟨1, 1⟩ := by
  have h := C6_bulk_assign_spec
    ⟨[⟨1, "a@b.c", "alice", "h", UserRole.admin, true⟩,
      ⟨2, "b@b.c", "bob", "h", UserRole.user, true⟩],
     [⟨1, "x", none, TaskStatus.todo, TaskPriority.medium, none, none, 1, 0, 0, false⟩],
     [], []⟩
    ⟨1, "a@b.c", "alice", "h", UserRole.admin, true⟩ [1] 2 3 rfl
  refine ⟨by decide, ?_⟩
  rw [(h.2.2 (by decide)).2]
  rfl

end TaskApp
